import Mathlib

/-!
Shallow embedding of `src/clang_opcodes.cpp` (the clang-opcodes Csound
plugin): the `clang_compile` and `clang_invoke` opcodes, the process-wide
JIT compiler session, the process-wide diagnostics flag, and the invokable
lifecycle.  Statuses are the host's integer codes (`OK = 0`, `NOTOK = -1`).
Calls into the external Clang/LLVM libraries (driver, code generation,
ORC) are modelled by a per-request record of their outcomes
(`FrontendResult`); the control flow around those calls is translated
directly from `ClangCompile::init`, `ClangInvoke::init`,
`ClangInvoke::kontrol` and `ClangInvoke::noteoff`.
-/

/-- Csound's success status (`#define OK (0)`). -/
def OK : Int := 0

/-- Csound's failure status (`#define NOTOK (-1)`). -/
def NOTOK : Int := -1

/-- Splits a character list at a delimiter, dropping empty tokens; helper
for `tokenize` (translation of the `find_first_not_of` / `find` loop in
the source's `tokenize`, which skips runs of the delimiter). -/
def tokenizeAux (delim : Char) : List Char → List Char → List String
  | [], cur => if cur.isEmpty then [] else [String.mk cur.reverse]
  | c :: rest, cur =>
      if c = delim then
        if cur.isEmpty then tokenizeAux delim rest []
        else String.mk cur.reverse :: tokenizeAux delim rest []
      else tokenizeAux delim rest (c :: cur)

/-- Translation of `tokenize(std::string const&, char, std::vector<std::string>&)`:
splits the string at the delimiter, never producing empty tokens. -/
def tokenize (s : String) (delim : Char) : List String :=
  tokenizeAux delim s.data []

/-- The state of the single ORC JIT compiler (`llvm::orc::JITCompiler`):
an identity (which process-wide creation produced this object) and the
names defined by modules added so far to its single JITDylib. -/
structure JITCompiler where
  id : Nat
  symbols : List String
deriving DecidableEq, Repr

/-- Translation of `JITCompiler::addModule` together with ORC's
duplicate-symbol rule (spec section 4.3: adding a module fails if it
conflicts with an already-registered symbol name): on success the
module's defined names join the dylib's symbol table. -/
def JITCompiler.addModule (j : JITCompiler) (syms : List String) : Except Unit JITCompiler :=
  if syms.any (fun s => decide (s ∈ j.symbols)) then Except.error ()
  else Except.ok { j with symbols := j.symbols ++ syms }

/-- Process-wide engine state: the diagnostics flag behind
`clang_diagnostics_enabled()`, the global `jit_compiler` shared pointer
(`none` models the null pointer), the list of permanently loaded dynamic
libraries, and how many JIT compiler objects have ever been created in
this process (used to state the singleton invariant). -/
structure EngineState where
  diagnostics : Bool
  jit : Option JITCompiler
  loaded : List String
  created : Nat
deriving DecidableEq, Repr

/-- The process state at startup: diagnostics off (`static bool enabled =
false`), null `jit_compiler`, no libraries loaded. -/
def initialState : EngineState := { diagnostics := false, jit := none, loaded := [], created := 0 }

/-- A `clang_compile` request's inputs (the opcode's string arguments):
entry-point name, source text, compiler options, space-delimited
link libraries. -/
structure SourceUnit where
  entry_point : String
  source_text : String
  compiler_options : String
  link_libraries : String
deriving DecidableEq, Repr

/-- Outcomes of the external Clang/LLVM calls made by one
`ClangCompile::init` request, one field per call site:
`buildCompilationOk` is `BuildCompilation` returning non-null;
`jobCount` is `compilation->getJobs().size()`; `firstJobIsCommand` is
`isa<driver::Command>(*jobs.begin())`; `creatorIsClang` is the command's
creator being named "clang"; `hasDiagnostics` is
`compiler_instance.hasDiagnostics()`; `actionOk` is
`ExecuteAction(EmitLLVMOnlyAction)` succeeding; `moduleProduced` is
`takeModule()` returning non-null; `jitCreateOk` is
`JITCompiler::Create()` succeeding; `moduleSymbols` are the names the
produced module defines; `entryReturn` is the value the compiled entry
point returns when invoked with the host context. -/
structure FrontendResult where
  buildCompilationOk : Bool
  jobCount : Nat
  firstJobIsCommand : Bool
  creatorIsClang : Bool
  hasDiagnostics : Bool
  actionOk : Bool
  moduleProduced : Bool
  jitCreateOk : Bool
  moduleSymbols : List String
  entryReturn : Int
deriving DecidableEq, Repr

/-- Observable events of one compile request: `entryInvoked name ret`
records one call of the entry point `name` with the host context as its
single argument, returning `ret`. -/
inductive CompileEvent
  | entryInvoked (name : String) (ret : Int)
deriving DecidableEq, Repr

/-- Outcome of `ClangCompile::init`: either the function returns an
integer status to Csound (with the resulting process state and the entry
point invocations that happened), or an error reached
`llvm::ExitOnError`, which terminates the whole process. -/
inductive CompileOutcome
  | ret (status : Int) (st : EngineState) (events : List CompileEvent)
  | procExit
deriving DecidableEq, Repr

/-- Tail of `ClangCompile::init` once a JIT compiler exists (lines
367-375): `addModule` and `getSymbolAddress` are wrapped in
`exit_on_error`, so their errors terminate the process; on success the
entry point is called once and the function returns `OK` (the local
`result` is discarded and `*i_result` is never written). -/
def addModuleAndRun (st : EngineState) (j : JITCompiler) (u : SourceUnit)
    (fr : FrontendResult) : CompileOutcome :=
  match j.addModule fr.moduleSymbols with
  | Except.error _ => CompileOutcome.procExit
  | Except.ok j2 =>
      let st2 := { st with jit := some j2 }
      if u.entry_point ∈ j2.symbols then
        CompileOutcome.ret OK st2 [CompileEvent.entryInvoked u.entry_point fr.entryReturn]
      else CompileOutcome.procExit

/-- Translation of `ClangCompile::init` (lines 242-376).  The request
first resets the process-wide diagnostics flag to `false` and re-enables
it if any option token equals "-v"; a null `BuildCompilation` returns
status 0; a job list not holding exactly one `Command` returns 1, as do a
non-clang command, missing diagnostics and a failed front-end action; a
null module skips the whole JIT block and returns `OK`; otherwise the
link libraries are loaded permanently, the JIT compiler is created
lazily (errors there, in `addModule` and in the entry-point lookup pass
through `exit_on_error` and terminate the process), the entry point is
invoked once, and the function returns `OK`. -/
def ClangCompile_init (st : EngineState) (u : SourceUnit) (fr : FrontendResult) :
    CompileOutcome :=
  let tokens := tokenize u.compiler_options ' '
  let st1 := { st with
    diagnostics := tokens.foldl (fun d t => if t = "-v" then true else d) false }
  if fr.buildCompilationOk = false then CompileOutcome.ret 0 st1 []
  else if fr.jobCount ≠ 1 ∨ fr.firstJobIsCommand = false then CompileOutcome.ret 1 st1 []
  else if fr.creatorIsClang = false then CompileOutcome.ret 1 st1 []
  else if fr.hasDiagnostics = false then CompileOutcome.ret 1 st1 []
  else if fr.actionOk = false then CompileOutcome.ret 1 st1 []
  else if fr.moduleProduced = false then CompileOutcome.ret OK st1 []
  else
    let st2 := { st1 with loaded := st1.loaded ++ tokenize u.link_libraries ' ' }
    match st2.jit with
    | none =>
        if fr.jitCreateOk = false then CompileOutcome.procExit
        else
          let j : JITCompiler := { id := st2.created, symbols := [] }
          addModuleAndRun { st2 with jit := some j, created := st2.created + 1 } j u fr
    | some j => addModuleAndRun st2 j u fr

/-- The host's numeric output buffers, abstractly (the `MYFLT *outputs[40]`
of `clang_invoke`, seen as the values observable by the host). -/
abbrev Outputs := List Int

/-- The behavior of one factory-produced `ClangInvokable` object, one
field per virtual method: the status `init` returns, the status `kontrol`
returns and its effect on the output buffers, and the status `noteoff`
returns. -/
structure ClangInvokable where
  initRet : Int
  kontrolRet : Int
  kontrolEffect : Outputs → Outputs
  noteoffRet : Int

/-- The mutable members of a `ClangInvoke` opcode instance: the cached
`thread` value and the owning `clang_invokable` shared pointer (`none`
models the null pointer). -/
structure ClangInvokeState where
  thread : Int
  invokable : Option ClangInvokable

/-- Calls made on the compiled code during `clang_invoke` processing:
the factory function being invoked, and the wrapped object's virtual
`init`, `kontrol` and `noteoff` methods being invoked. -/
inductive InvEvent
  | factoryCalled
  | invInit
  | invKontrol
  | invNoteoff
deriving DecidableEq, Repr

/-- Outcome of `ClangInvoke::init`: a status returned to Csound together
with the opcode state and the calls made into compiled code; or process
termination through `exit_on_error` (factory symbol not found); or
undefined behavior (the unguarded `jit_compiler->` dereference when the
global shared pointer is null). -/
inductive InvokeInitOutcome
  | ret (status : Int) (ops : ClangInvokeState) (events : List InvEvent)
  | procExit
  | undefinedBehavior

/-- Translation of `ClangInvoke::init` (lines 404-428): record `thread`;
reject any value outside {1, 2, 3} with `NOTOK` before anything else
happens; look the factory symbol up through the global `jit_compiler`
(dereferenced with no null check; a lookup error passes through
`exit_on_error` and terminates the process); call the factory and take
ownership of the produced instance; if `thread == 2` return `OK` at once,
otherwise call the instance's `init` and return its status. -/
def ClangInvoke_init (st : EngineState) (ops : ClangInvokeState) (i_thread : Int)
    (factory : String) (obj : ClangInvokable) : InvokeInitOutcome :=
  let thread := i_thread
  if ¬(thread = 1 ∨ thread = 2 ∨ thread = 3) then
    InvokeInitOutcome.ret NOTOK { ops with thread := thread } []
  else
    match st.jit with
    | none => InvokeInitOutcome.undefinedBehavior
    | some j =>
        if factory ∈ j.symbols then
          let ops2 : ClangInvokeState := { thread := thread, invokable := some obj }
          if thread = 2 then InvokeInitOutcome.ret OK ops2 [InvEvent.factoryCalled]
          else InvokeInitOutcome.ret obj.initRet ops2 [InvEvent.factoryCalled, InvEvent.invInit]
        else InvokeInitOutcome.procExit

/-- Translation of `ClangInvoke::kontrol` (lines 429-438): when
`thread == 1` return `OK` without touching the instance; otherwise call
the instance's `kontrol` (a null instance is undefined behavior,
modelled as `none`) and return its status and output effect. -/
def ClangInvoke_kontrol (ops : ClangInvokeState) (outs : Outputs) :
    Option (Int × ClangInvokeState × Outputs × List InvEvent) :=
  if ops.thread = 1 then some (OK, ops, outs, [])
  else
    match ops.invokable with
    | none => none
    | some obj => some (obj.kontrolRet, ops, obj.kontrolEffect outs, [InvEvent.invKontrol])

/-- Translation of `ClangInvoke::noteoff` (lines 439-446): call the
instance's `noteoff` (a null instance is undefined behavior, modelled as
`none`), then reset the owning pointer unconditionally, and return the
status `noteoff` produced. -/
def ClangInvoke_noteoff (ops : ClangInvokeState) :
    Option (Int × ClangInvokeState × List InvEvent) :=
  match ops.invokable with
  | none => none
  | some obj =>
      some (obj.noteoffRet, { ops with invokable := none }, [InvEvent.invNoteoff])

/-- Iterates `ClangInvoke_kontrol` a number of processing cycles,
collecting the statuses returned and the calls made into compiled code. -/
def kontrolIter : Nat → ClangInvokeState → Outputs →
    Option (List Int × ClangInvokeState × Outputs × List InvEvent)
  | 0, ops, outs => some ([], ops, outs, [])
  | n + 1, ops, outs =>
      match ClangInvoke_kontrol ops outs with
      | none => none
      | some (r, ops2, outs2, ev) =>
          match kontrolIter n ops2 outs2 with
          | none => none
          | some (rs, ops3, outs3, evs) => some (r :: rs, ops3, outs3, ev ++ evs)

/-- One request arriving at the engine: a `clang_compile` init pass or a
`clang_invoke` init pass. -/
inductive Request
  | compile (u : SourceUnit) (fr : FrontendResult)
  | invoke (ops : ClangInvokeState) (mode : Int) (factory : String) (obj : ClangInvokable)

/-- How one request transforms the process-wide engine state: `none` when
the process does not survive the request (termination through
`exit_on_error`, or undefined behavior).  `ClangInvoke::init` never
writes any process-wide state, so an invoke request that returns leaves
the engine state unchanged. -/
def stepEngine (st : EngineState) (req : Request) : Option EngineState :=
  match req with
  | Request.compile u fr =>
      match ClangCompile_init st u fr with
      | CompileOutcome.ret _ st2 _ => some st2
      | CompileOutcome.procExit => none
  | Request.invoke ops mode factory obj =>
      match ClangInvoke_init st ops mode factory obj with
      | InvokeInitOutcome.ret _ _ _ => some st
      | InvokeInitOutcome.procExit => none
      | InvokeInitOutcome.undefinedBehavior => none

/-- Runs a sequence of requests from a starting engine state, stopping
when the process dies. -/
def runEngine : EngineState → List Request → Option EngineState
  | st, [] => some st
  | st, req :: reqs =>
      match stepEngine st req with
      | none => none
      | some st2 => runEngine st2 reqs

/-- The JIT-session singleton invariant: at most one JIT compiler object
has ever been created in the process, the live session (when present) is
that first object, and no session means none was ever created. -/
def sessionInv (st : EngineState) : Prop :=
  st.created ≤ 1 ∧
    (match st.jit with
     | none => st.created = 0
     | some j => j.id = 0 ∧ st.created = 1)

/-! Concrete scenarios used by counterexamples and witnesses. -/

/-- Spec scenario 1: a SourceUnit whose source defines the entry point
`main_a` returning 42, with empty options and libraries. -/
def scenario1_unit : SourceUnit :=
  { entry_point := "main_a", source_text := "int main_a(Ctx*)\x7breturn 42;\x7d",
    compiler_options := "", link_libraries := "" }

/-- External-call outcomes for scenario 1: the front end succeeds in
every step, the module defines `main_a`, and `main_a` returns 42 when
invoked. -/
def scenario1_frontend : FrontendResult :=
  { buildCompilationOk := true, jobCount := 1, firstJobIsCommand := true,
    creatorIsClang := true, hasDiagnostics := true, actionOk := true,
    moduleProduced := true, jitCreateOk := true,
    moduleSymbols := ["main_a"], entryReturn := 42 }

/-- The engine state after scenario 1 runs from process startup: the JIT
compiler was created (object 0) and holds the symbol `main_a`. -/
def stateAfterScenario1 : EngineState :=
  { diagnostics := false, jit := some { id := 0, symbols := ["main_a"] },
    loaded := [], created := 1 }

/-- A compile request whose options hold only the verbose token. -/
def requestVerbose : SourceUnit :=
  { entry_point := "e1", source_text := "", compiler_options := "-v", link_libraries := "" }

/-- A compile request with empty options. -/
def requestPlain : SourceUnit :=
  { entry_point := "e2", source_text := "", compiler_options := "", link_libraries := "" }

/-- External-call outcomes where `BuildCompilation` already returns null. -/
def frontendFailed : FrontendResult :=
  { buildCompilationOk := false, jobCount := 0, firstJobIsCommand := false,
    creatorIsClang := false, hasDiagnostics := false, actionOk := false,
    moduleProduced := false, jitCreateOk := false, moduleSymbols := [], entryReturn := 0 }

/-- External-call outcomes where the driver builds a compilation whose
job list is empty (zero compile jobs). -/
def frontendNoJobs : FrontendResult :=
  { buildCompilationOk := true, jobCount := 0, firstJobIsCommand := false,
    creatorIsClang := false, hasDiagnostics := false, actionOk := false,
    moduleProduced := false, jitCreateOk := false, moduleSymbols := [], entryReturn := 0 }

/-- An invokable object whose every method succeeds and whose update
leaves the outputs unchanged. -/
def objDefault : ClangInvokable :=
  { initRet := 0, kontrolRet := 0, kontrolEffect := fun o => o, noteoffRet := 0 }

/-- An invokable object whose `noteoff` reports failure (-1). -/
def objFailingNoteoff : ClangInvokable :=
  { initRet := 0, kontrolRet := 0, kontrolEffect := fun o => o, noteoffRet := -1 }

/-! Helper lemmas shared by the claim theorems. -/

/-- The fold implementing the "-v" scan of the option tokens computes
exactly membership of "-v" in the token list. -/
theorem diag_foldl (l : List String) (b : Bool) :
    l.foldl (fun d t => decide (t = "-v") || d) b = (b || decide ("-v" ∈ l)) := by
  induction l generalizing b with
  | nil => simp
  | cons c l ih =>
      simp only [List.foldl_cons, ih, List.mem_cons]
      by_cases h : c = "-v" <;>
        simp [h, eq_comm, Bool.or_comm, Bool.or_assoc, Bool.or_left_comm]

/-- When the add-and-run tail of a compile request returns a status, the
resulting state is the input state with the module's symbols joined to
the session's symbol table and everything else untouched. -/
theorem addModuleAndRun_ret (st : EngineState) (j : JITCompiler) (u : SourceUnit)
    (fr : FrontendResult) (r : Int) (st2 : EngineState) (ev : List CompileEvent)
    (h : addModuleAndRun st j u fr = CompileOutcome.ret r st2 ev) :
    st2 = { st with jit := some { id := j.id, symbols := j.symbols ++ fr.moduleSymbols } } := by
  unfold addModuleAndRun JITCompiler.addModule at h
  split at h
  next heq =>
    exact absurd h (by simp)
  next j2 heq =>
    split at heq
    · exact absurd heq (by simp)
    · injection heq with heq2
      subst heq2
      split at h
      · injection h with h1 h2 h3
        exact h2.symm
      · exact absurd h (by simp)

/-- When a compile request returns a status, the resulting diagnostics
flag is exactly the "-v" membership of this request's options, and the
session is either untouched, freshly created with this module's symbols,
or the pre-existing object extended with this module's symbols. -/
theorem ClangCompile_init_ret (st : EngineState) (u : SourceUnit) (fr : FrontendResult)
    (r : Int) (st2 : EngineState) (ev : List CompileEvent)
    (h : ClangCompile_init st u fr = CompileOutcome.ret r st2 ev) :
    st2.diagnostics = decide ("-v" ∈ tokenize u.compiler_options ' ') ∧
    ((st2.jit = st.jit ∧ st2.created = st.created) ∨
     (st.jit = none ∧ st2.jit = some { id := st.created, symbols := [] ++ fr.moduleSymbols } ∧
       st2.created = st.created + 1) ∨
     (∃ j, st.jit = some j ∧
       st2.jit = some { id := j.id, symbols := j.symbols ++ fr.moduleSymbols } ∧
       st2.created = st.created)) := by
  simp only [ClangCompile_init] at h
  split at h
  · injection h with h1 h2 h3
    subst h2
    exact ⟨by simp [diag_foldl], Or.inl ⟨rfl, rfl⟩⟩
  split at h
  · injection h with h1 h2 h3
    subst h2
    exact ⟨by simp [diag_foldl], Or.inl ⟨rfl, rfl⟩⟩
  split at h
  · injection h with h1 h2 h3
    subst h2
    exact ⟨by simp [diag_foldl], Or.inl ⟨rfl, rfl⟩⟩
  split at h
  · injection h with h1 h2 h3
    subst h2
    exact ⟨by simp [diag_foldl], Or.inl ⟨rfl, rfl⟩⟩
  split at h
  · injection h with h1 h2 h3
    subst h2
    exact ⟨by simp [diag_foldl], Or.inl ⟨rfl, rfl⟩⟩
  split at h
  · injection h with h1 h2 h3
    subst h2
    exact ⟨by simp [diag_foldl], Or.inl ⟨rfl, rfl⟩⟩
  · split at h
    next heq =>
      split at h
      · exact absurd h (by simp)
      · have h2 := addModuleAndRun_ret _ _ _ _ _ _ _ h
        subst h2
        refine ⟨by simp [diag_foldl], Or.inr (Or.inl ⟨heq, by simp, by simp⟩)⟩
    next j heq =>
      have h2 := addModuleAndRun_ret _ _ _ _ _ _ _ h
      subst h2
      exact ⟨by simp [diag_foldl], Or.inr (Or.inr ⟨j, heq, by simp, by simp⟩)⟩

/-- An invoke request that returns a status never changes the
process-wide engine state. -/
theorem invoke_keeps_state (st : EngineState) (ops : ClangInvokeState) (mode : Int)
    (factory : String) (obj : ClangInvokable) (st2 : EngineState)
    (h : stepEngine st (Request.invoke ops mode factory obj) = some st2) : st2 = st := by
  simp only [stepEngine] at h
  split at h
  · injection h with h1
    exact h1.symm
  · exact absurd h (by simp)
  · exact absurd h (by simp)

/-- Any surviving request either leaves the session and the creation
count alone, creates the one new session from a sessionless state, or
extends the existing session object in place (same identity). -/
theorem stepEngine_session (st : EngineState) (req : Request) (st2 : EngineState)
    (h : stepEngine st req = some st2) :
    (st2.jit = st.jit ∧ st2.created = st.created) ∨
    (st.jit = none ∧ (∃ syms, st2.jit = some { id := st.created, symbols := syms }) ∧
      st2.created = st.created + 1) ∨
    (∃ j syms, st.jit = some j ∧ st2.jit = some { id := j.id, symbols := syms } ∧
      st2.created = st.created) := by
  cases req with
  | invoke ops mode factory obj =>
      have h2 := invoke_keeps_state _ _ _ _ _ _ h
      subst h2
      exact Or.inl ⟨rfl, rfl⟩
  | compile u fr =>
      simp only [stepEngine] at h
      split at h
      next r stx ev heq =>
        injection h with h1
        subst h1
        rcases (ClangCompile_init_ret _ _ _ _ _ _ heq).2 with h2 | ⟨hn, hj, hc⟩ | ⟨j, hj, hj2, hc⟩
        · exact Or.inl h2
        · exact Or.inr (Or.inl ⟨hn, ⟨_, hj⟩, hc⟩)
        · exact Or.inr (Or.inr ⟨j, _, hj, hj2, hc⟩)
      next heq => exact absurd h (by simp)

/-- The singleton invariant is preserved by every surviving request. -/
theorem sessionInv_step (st : EngineState) (req : Request) (st2 : EngineState)
    (hinv : sessionInv st) (h : stepEngine st req = some st2) : sessionInv st2 := by
  obtain ⟨hle, hmatch⟩ := hinv
  rcases stepEngine_session _ _ _ h with ⟨hj, hc⟩ | ⟨hn, ⟨syms, hj⟩, hc⟩ | ⟨j, syms, hj, hj2, hc⟩
  · constructor
    · omega
    · rw [hj, hc]
      exact hmatch
  · rw [hn] at hmatch
    constructor
    · omega
    · rw [hj]
      simp only []
      omega
  · rw [hj] at hmatch
    constructor
    · omega
    · rw [hj2]
      simp only []
      exact ⟨hmatch.1, by omega⟩

/-- The singleton invariant is preserved along any surviving request
sequence. -/
theorem runEngine_inv (reqs : List Request) (st st2 : EngineState)
    (hinv : sessionInv st) (h : runEngine st reqs = some st2) : sessionInv st2 := by
  induction reqs generalizing st with
  | nil =>
      simp only [runEngine] at h
      injection h with h1
      subst h1
      exact hinv
  | cons req reqs ih =>
      simp only [runEngine] at h
      split at h
      · exact absurd h (by simp)
      next stx heq => exact ih stx (sessionInv_step _ _ _ hinv heq) h

/-! Claim theorems. -/

/-- C1: on a fully successful compile request (scenario 1: `main_a`
returning 42), the entry point is invoked exactly once with the host
context as its single argument and returns 42 — but the request's
status is `OK` (0), not 42: `ClangCompile::init` discards the local
`result` and never writes `*i_result`, so the claimed "status equals the
entry point's return value" fails on the code. -/
theorem c1_entry_invoked_once_result_discarded :
    ClangCompile_init initialState scenario1_unit scenario1_frontend =
      CompileOutcome.ret OK stateAfterScenario1
        [CompileEvent.entryInvoked "main_a" 42] ∧
    OK ≠ (42 : Int) := by decide

/-- C2 counterexample: running scenario 1 twice in one process — the
second SourceUnit declaring the same entry point name `main_a` — makes
the second compile request terminate the whole process through
`llvm::ExitOnError` (`procExit`), instead of returning a non-OK status
to the immediate caller as the claim states. -/
theorem c2_counterexample :
    ClangCompile_init initialState scenario1_unit scenario1_frontend =
      CompileOutcome.ret OK stateAfterScenario1
        [CompileEvent.entryInvoked "main_a" 42] ∧
    ClangCompile_init stateAfterScenario1 scenario1_unit scenario1_frontend =
      CompileOutcome.procExit := by decide

/-- C2 amended: a duplicate-symbol error — a second SourceUnit in the
same session whose module defines a symbol already registered by an
earlier one — is not surfaced as a status value: it reaches
`exit_on_error`, which terminates the process. -/
theorem c2_duplicate_symbol_terminates_process (st : EngineState) (j : JITCompiler)
    (u : SourceUnit) (fr : FrontendResult) (hjit : st.jit = some j)
    (h1 : fr.buildCompilationOk = true) (h2 : fr.jobCount = 1)
    (h3 : fr.firstJobIsCommand = true) (h4 : fr.creatorIsClang = true)
    (h5 : fr.hasDiagnostics = true) (h6 : fr.actionOk = true)
    (h7 : fr.moduleProduced = true) (s : String) (hs : s ∈ fr.moduleSymbols)
    (hdup : s ∈ j.symbols) :
    ClangCompile_init st u fr = CompileOutcome.procExit := by
  have hany : fr.moduleSymbols.any (fun s => decide (s ∈ j.symbols)) = true := by
    simp only [List.any_eq_true, decide_eq_true_eq]
    exact ⟨s, hs, hdup⟩
  simp [ClangCompile_init, addModuleAndRun, JITCompiler.addModule,
    h1, h2, h3, h4, h5, h6, h7, hjit, hany]

/-- Witness for C2's amended theorem at the concrete duplicate `main_a`. -/
theorem c2_duplicate_symbol_terminates_process_witness :
    ClangCompile_init stateAfterScenario1 scenario1_unit scenario1_frontend =
      CompileOutcome.procExit :=
  c2_duplicate_symbol_terminates_process stateAfterScenario1
    { id := 0, symbols := ["main_a"] } scenario1_unit scenario1_frontend
    rfl rfl rfl rfl rfl rfl rfl rfl "main_a" (by decide) (by decide)

/-- C3: a compile request whose driver compilation resolves to a job
count other than one returns failure status 1 (≠ OK), registers no
module, and leaves the JIT session exactly as it was (in particular it
is not created if absent). -/
theorem c3_bad_job_count_fails_without_session (st : EngineState) (u : SourceUnit)
    (fr : FrontendResult) (h1 : fr.buildCompilationOk = true) (h2 : fr.jobCount ≠ 1) :
    ∃ st2, ClangCompile_init st u fr = CompileOutcome.ret 1 st2 [] ∧
      st2.jit = st.jit ∧ st2.created = st.created ∧ (1 : Int) ≠ OK := by
  refine ⟨{ st with diagnostics :=
    (tokenize u.compiler_options ' ').foldl (fun d t => if t = "-v" then true else d) false },
    ?_, rfl, rfl, by decide⟩
  simp [ClangCompile_init, h1, h2]

/-- Witness for C3: empty options resolving to zero jobs, from process
startup (no session existed, none is created). -/
theorem c3_bad_job_count_witness :
    ∃ st2, ClangCompile_init initialState requestPlain frontendNoJobs =
        CompileOutcome.ret 1 st2 [] ∧
      st2.jit = initialState.jit ∧ st2.created = initialState.created ∧ (1 : Int) ≠ OK :=
  c3_bad_job_count_fails_without_session initialState requestPlain frontendNoJobs rfl
    (by decide)

/-- C4 counterexample: a compile request with "-v" enables the
process-wide diagnostics flag, but the very next compile request without
the token resets it to false — the toggle does not persist across later
compile requests as the claim states. -/
theorem c4_counterexample :
    ClangCompile_init initialState requestVerbose frontendFailed =
      CompileOutcome.ret 0
        { diagnostics := true, jit := none, loaded := [], created := 0 } [] ∧
    ClangCompile_init { diagnostics := true, jit := none, loaded := [], created := 0 }
        requestPlain frontendFailed =
      CompileOutcome.ret 0
        { diagnostics := false, jit := none, loaded := [], created := 0 } [] := by decide

/-- C4 amended: the diagnostics state left behind by a compile request
that returns is determined solely by that request's own options —
`ClangCompile::init` first resets the process-wide flag to false and
re-enables it only when its own token list holds "-v"; so the flag does
persist for subsequent operations, but only until the next compile
request, which resets it. -/
theorem c4_diagnostics_follow_current_request (st : EngineState) (u : SourceUnit)
    (fr : FrontendResult) (r : Int) (st2 : EngineState) (ev : List CompileEvent)
    (h : ClangCompile_init st u fr = CompileOutcome.ret r st2 ev) :
    (st2.diagnostics = true ↔ "-v" ∈ tokenize u.compiler_options ' ') := by
  have h2 := (ClangCompile_init_ret _ _ _ _ _ _ h).1
  rw [h2]
  simp

/-- Witness for C4's amended theorem: a plain-option request from a
state where diagnostics were on leaves the flag exactly at "-v"
membership of its own (empty) token list. -/
theorem c4_diagnostics_follow_current_request_witness :
    (({ diagnostics := false, jit := none, loaded := [], created := 0 } : EngineState).diagnostics
        = true ↔ "-v" ∈ tokenize requestPlain.compiler_options ' ') :=
  c4_diagnostics_follow_current_request
    { diagnostics := true, jit := none, loaded := [], created := 0 } requestPlain
    frontendFailed 0 { diagnostics := false, jit := none, loaded := [], created := 0 } []
    (by decide)

/-- C5: at most one JIT session per process — along every surviving
request sequence from process startup, at most one JIT compiler object
is ever created, a session-less state means none was ever created
(creation is lazy), and whenever a session exists it is the single
object created first (identity 0); moreover an invoke request never
touches the process-wide state at all, so it reuses whatever session
exists rather than creating another. -/
theorem c5_single_jit_session :
    (∀ reqs st2, runEngine initialState reqs = some st2 → sessionInv st2) ∧
    (∀ st ops mode factory obj st2,
      stepEngine st (Request.invoke ops mode factory obj) = some st2 → st2 = st) := by
  constructor
  · intro reqs st2 h
    exact runEngine_inv reqs initialState st2 ⟨by decide, rfl⟩ h
  · intro st ops mode factory obj st2 h
    exact invoke_keeps_state st ops mode factory obj st2 h

/-- Witness for C5: the state after one successful compilation satisfies
the singleton invariant, and a concrete invoke request from it leaves
the engine state identical. -/
theorem c5_single_jit_session_witness :
    sessionInv stateAfterScenario1 ∧ stateAfterScenario1 = stateAfterScenario1 :=
  ⟨c5_single_jit_session.1 [Request.compile scenario1_unit scenario1_frontend]
      stateAfterScenario1 (by decide),
    c5_single_jit_session.2 stateAfterScenario1 { thread := 0, invokable := none } 2
      "main_a" objDefault stateAfterScenario1 rfl⟩

/-- C6: an invoke request whose execution mode is outside {1, 2, 3}
fails immediately with `NOTOK` (≠ OK): no factory lookup happens, no
instance is created (the invokable pointer stays null), and no
setup/update/teardown call is made (the event list is empty). -/
theorem c6_invalid_mode_rejected (st : EngineState) (ops : ClangInvokeState) (mode : Int)
    (factory : String) (obj : ClangInvokable) (hops : ops.invokable = none)
    (h : ¬(mode = 1 ∨ mode = 2 ∨ mode = 3)) :
    ClangInvoke_init st ops mode factory obj =
      InvokeInitOutcome.ret NOTOK { thread := mode, invokable := none } [] ∧
    NOTOK ≠ OK := by
  refine ⟨?_, by decide⟩
  obtain ⟨t, inv⟩ := ops
  simp only at hops
  subst hops
  simp [ClangInvoke_init, h]

/-- Witness for C6 at the out-of-range mode 4. -/
theorem c6_invalid_mode_rejected_witness :
    ClangInvoke_init initialState { thread := 0, invokable := none } 4 "factory_fn"
        objDefault =
      InvokeInitOutcome.ret NOTOK { thread := 4, invokable := none } [] ∧
    NOTOK ≠ OK :=
  c6_invalid_mode_rejected initialState { thread := 0, invokable := none } 4 "factory_fn"
    objDefault rfl (by decide)

/-- C7: an invoke request with execution mode 2 (UpdateOnly) constructs
the instance through the factory and returns `OK` without ever calling
the instance's setup (`init`) — the only call into compiled code is the
factory itself — and the instance is immediately update-eligible: a
following update call reaches the instance's `kontrol`. -/
theorem c7_update_only_skips_setup (st : EngineState) (j : JITCompiler)
    (ops : ClangInvokeState) (factory : String) (obj : ClangInvokable)
    (hjit : st.jit = some j) (hf : factory ∈ j.symbols) :
    ClangInvoke_init st ops 2 factory obj =
      InvokeInitOutcome.ret OK { thread := 2, invokable := some obj }
        [InvEvent.factoryCalled] ∧
    (∀ outs, ClangInvoke_kontrol { thread := 2, invokable := some obj } outs =
      some (obj.kontrolRet, { thread := 2, invokable := some obj }, obj.kontrolEffect outs,
        [InvEvent.invKontrol])) := by
  constructor
  · simp [ClangInvoke_init, hjit, hf]
  · intro outs
    simp [ClangInvoke_kontrol]

/-- Witness for C7: mode-2 construction against the session holding
`main_a`, followed by one update call on concrete outputs. -/
theorem c7_update_only_skips_setup_witness :
    ClangInvoke_init stateAfterScenario1 { thread := 0, invokable := none } 2 "main_a"
        objDefault =
      InvokeInitOutcome.ret OK { thread := 2, invokable := some objDefault }
        [InvEvent.factoryCalled] ∧
    ClangInvoke_kontrol { thread := 2, invokable := some objDefault } [3] =
      some (objDefault.kontrolRet, { thread := 2, invokable := some objDefault },
        objDefault.kontrolEffect [3], [InvEvent.invKontrol]) :=
  ⟨(c7_update_only_skips_setup stateAfterScenario1 { id := 0, symbols := ["main_a"] }
      { thread := 0, invokable := none } "main_a" objDefault rfl (by decide)).1,
    (c7_update_only_skips_setup stateAfterScenario1 { id := 0, symbols := ["main_a"] }
      { thread := 0, invokable := none } "main_a" objDefault rfl (by decide)).2 [3]⟩

/-- C8: on an instance whose execution mode is 1 (SetupOnly), any number
of update calls all return `OK`, never reach the instance's `kontrol`
(no events), and leave the opcode state and the observable outputs
unchanged. -/
theorem c8_setup_only_update_noop (ops : ClangInvokeState) (outs : Outputs) (n : Nat)
    (h : ops.thread = 1) :
    kontrolIter n ops outs = some (List.replicate n OK, ops, outs, []) := by
  induction n with
  | zero => simp [kontrolIter]
  | succ n ih => simp [kontrolIter, ClangInvoke_kontrol, h, ih, List.replicate_succ]

/-- Witness for C8: three update calls on a mode-1 instance. -/
theorem c8_setup_only_update_noop_witness :
    kontrolIter 3 { thread := 1, invokable := none } [7] =
      some (List.replicate 3 OK, { thread := 1, invokable := none }, [7], []) :=
  c8_setup_only_update_noop { thread := 1, invokable := none } [7] 3 rfl

/-- C9: teardown on an initialized instance always calls the instance's
`noteoff` and then clears the owning pointer, whatever status `noteoff`
returns, and that status is the one reported. -/
theorem c9_noteoff_always_releases (ops : ClangInvokeState) (obj : ClangInvokable)
    (h : ops.invokable = some obj) :
    ClangInvoke_noteoff ops =
      some (obj.noteoffRet, { ops with invokable := none }, [InvEvent.invNoteoff]) := by
  simp [ClangInvoke_noteoff, h]

/-- Witness for C9 on an instance whose `noteoff` reports failure (-1):
the pointer is cleared all the same. -/
theorem c9_noteoff_always_releases_witness :
    ClangInvoke_noteoff { thread := 3, invokable := some objFailingNoteoff } =
      some (objFailingNoteoff.noteoffRet, { thread := 3, invokable := none },
        [InvEvent.invNoteoff]) :=
  c9_noteoff_always_releases { thread := 3, invokable := some objFailingNoteoff }
    objFailingNoteoff rfl

/-- C10: an invoke request with a valid execution mode made while the
global `jit_compiler` pointer is null (no compilation has succeeded in
the process) is undefined behavior — the unguarded dereference — rather
than any returned error status. -/
theorem c10_invoke_without_session_undefined (st : EngineState) (ops : ClangInvokeState)
    (mode : Int) (factory : String) (obj : ClangInvokable)
    (hmode : mode = 1 ∨ mode = 2 ∨ mode = 3) (hjit : st.jit = none) :
    ClangInvoke_init st ops mode factory obj = InvokeInitOutcome.undefinedBehavior := by
  simp [ClangInvoke_init, hjit, hmode]

/-- Witness for C10: a mode-2 invoke request at process startup. -/
theorem c10_invoke_without_session_undefined_witness :
    ClangInvoke_init initialState { thread := 0, invokable := none } 2 "factory_fn"
        objDefault = InvokeInitOutcome.undefinedBehavior :=
  c10_invoke_without_session_undefined initialState { thread := 0, invokable := none } 2
    "factory_fn" objDefault (Or.inr (Or.inl rfl)) rfl
